import Mathlib

/-!
Shallow embedding of the finite-state-machine engine in `fsm.hpp` / `fsm.cpp`
(class `FSM`). Printing to `cout` and reading from `cin` are external
collaborators: a handler that reads a command takes the read integer as a
parameter, and every call of the clock `millis()` is modelled as a `Nat`
parameter giving the value the clock returned.  C++ `int` counters are
modelled as `Int` (the setters may store arbitrary, even negative, values);
`uint32_t` timestamps and delays are modelled as `Nat` (the engine only
stores and compares them, never computes with them, so wrap-around cannot
be observed in any of the properties below).
-/

/-- The `SystemState` enumeration of `fsm.hpp` (lines 12-20). -/
inductive SystemState where
  | INIT
  | IDLE
  | MOVEMENT
  | SHOOTING
  | CALCULATION
  | ERROR
  | STOPPED
deriving DecidableEq, Repr

/-- The `FSM` class state: fields as declared in `fsm.hpp` lines 26-32. -/
structure FSM where
  currentState : SystemState
  lastHeartbeat : Nat
  delay : Nat
  errorCount : Int
  stateHistory : List (SystemState × Nat)
  moveCount : Int
deriving DecidableEq, Repr

namespace FSM

/-- Constructor `FSM::FSM(uint32_t delay_ms)` (fsm.cpp lines 21-24): state INIT,
heartbeat 0, counters 0, history seeded with `(INIT, 0)`. -/
def initWithDelay (d : Nat) : FSM :=
  { currentState := SystemState.INIT
    lastHeartbeat := 0
    delay := d
    errorCount := 0
    stateHistory := [(SystemState.INIT, 0)]
    moveCount := 0 }

/-- Default constructor `FSM::FSM()` (fsm.cpp lines 15-18): same as the
delay constructor with `delay = 0`. -/
def mkDefault : FSM := initWithDelay 0

/-- `FSM::transitionToState` (fsm.cpp lines 37-41): set the current state,
set `lastHeartbeat` to the clock value `t` returned by `millis()`, and
append `(newState, t)` to the history. -/
def transitionToState (s : FSM) (newState : SystemState) (t : Nat) : FSM :=
  { s with currentState := newState
           lastHeartbeat := t
           stateHistory := s.stateHistory ++ [(newState, t)] }

/-- `FSM::setDelay` (fsm.cpp line 43). -/
def setDelay (s : FSM) (d : Nat) : FSM := { s with delay := d }

/-- `FSM::setErrorCount` (fsm.cpp line 45): overwrites the counter. -/
def setErrorCount (s : FSM) (c : Int) : FSM := { s with errorCount := c }

/-- `FSM::setMoveCount` (fsm.cpp line 47): overwrites the counter. -/
def setMoveCount (s : FSM) (c : Int) : FSM := { s with moveCount := c }

/-- `FSM::addStateToHistory` (fsm.cpp lines 50-52): appends the given pair. -/
def addStateToHistory (s : FSM) (st : SystemState) (t : Nat) : FSM :=
  { s with stateHistory := s.stateHistory ++ [(st, t)] }

/-- `FSM::setLastHeartbeat` (fsm.cpp line 57). -/
def setLastHeartbeat (s : FSM) (t : Nat) : FSM := { s with lastHeartbeat := t }

/-- `FSM::performInit` (fsm.cpp lines 98-101): prints a message and
transitions to IDLE.  It does not touch `delay`. -/
def performInit (s : FSM) (t : Nat) : FSM :=
  s.transitionToState SystemState.IDLE t

/-- `FSM::performProcess` (fsm.cpp lines 104-116): reads one command `cmd`
from `cin`; command 1 only prints (state unchanged), 2-5 transition to
MOVEMENT / SHOOTING / CALCULATION / STOPPED, anything else to ERROR. -/
def performProcess (s : FSM) (cmd : Int) (t : Nat) : FSM :=
  if cmd = 1 then s
  else if cmd = 2 then s.transitionToState SystemState.MOVEMENT t
  else if cmd = 3 then s.transitionToState SystemState.SHOOTING t
  else if cmd = 4 then s.transitionToState SystemState.CALCULATION t
  else if cmd = 5 then s.transitionToState SystemState.STOPPED t
  else s.transitionToState SystemState.ERROR t

/-- `FSM::performMovement` (fsm.cpp lines 119-123): `moveCount++`, then
transition to SHOOTING if the incremented count is `>= 3`, else IDLE. -/
def performMovement (s : FSM) (t : Nat) : FSM :=
  let s' := { s with moveCount := s.moveCount + 1 }
  s'.transitionToState
    (if s'.moveCount ≥ 3 then SystemState.SHOOTING else SystemState.IDLE) t

/-- `FSM::performShooting` (fsm.cpp lines 126-130): reset `moveCount` to 0
and transition to IDLE. -/
def performShooting (s : FSM) (t : Nat) : FSM :=
  { s with moveCount := 0 }.transitionToState SystemState.IDLE t

/-- `FSM::performCalculation` (fsm.cpp lines 133-137): ERROR if
`moveCount == 0`, otherwise IDLE; no counter is mutated. -/
def performCalculation (s : FSM) (t : Nat) : FSM :=
  if s.moveCount = 0 then s.transitionToState SystemState.ERROR t
  else s.transitionToState SystemState.IDLE t

/-- `FSM::performErrorHandling` (fsm.cpp lines 140-144): `errorCount++`,
then transition to STOPPED if the incremented count is `> 3`, else IDLE. -/
def performErrorHandling (s : FSM) (t : Nat) : FSM :=
  let s' := { s with errorCount := s.errorCount + 1 }
  s'.transitionToState
    (if s'.errorCount > 3 then SystemState.STOPPED else SystemState.IDLE) t

/-- `FSM::shutdown` (fsm.cpp lines 147-150): prints the history and changes
no field (it does not clear the history, contrary to the header comment). -/
def shutdown (s : FSM) : FSM := s

/-- `FSM::update` (fsm.cpp lines 69-79): dispatch on the current state.
`cmd` is the integer `performProcess` would read from `cin` (consumed only
in the IDLE branch), `t` the clock value for this step. -/
def update (s : FSM) (cmd : Int) (t : Nat) : FSM :=
  match s.currentState with
  | SystemState.INIT => s.performInit t
  | SystemState.IDLE => s.performProcess cmd t
  | SystemState.MOVEMENT => s.performMovement t
  | SystemState.SHOOTING => s.performShooting t
  | SystemState.CALCULATION => s.performCalculation t
  | SystemState.ERROR => s.performErrorHandling t
  | SystemState.STOPPED => s.shutdown

end FSM

/-- A sequence of `transitionToState` calls, each with its target state and
the clock value `millis()` returned during it. -/
def runTransitions (s : FSM) : List (SystemState × Nat) → FSM
  | [] => s
  | (st, t) :: rest => runTransitions (s.transitionToState st t) rest

/-- A sequence of `update` calls, each with the command that would be read
in the IDLE branch and the clock value of the step. -/
def runUpdates (s : FSM) : List (Int × Nat) → FSM
  | [] => s
  | (cmd, t) :: rest => runUpdates (s.update cmd t) rest

/-- The public mutating operations of the `FSM` class, with the inputs
(clock values, commands, setter arguments) each one consumes. -/
inductive Op where
  | opTransitionToState (st : SystemState) (t : Nat)
  | opSetDelay (d : Nat)
  | opSetErrorCount (c : Int)
  | opSetMoveCount (c : Int)
  | opAddStateToHistory (st : SystemState) (t : Nat)
  | opSetLastHeartbeat (t : Nat)
  | opPerformInit (t : Nat)
  | opPerformProcess (cmd : Int) (t : Nat)
  | opPerformMovement (t : Nat)
  | opPerformShooting (t : Nat)
  | opPerformCalculation (t : Nat)
  | opPerformErrorHandling (t : Nat)
  | opUpdate (cmd : Int) (t : Nat)
  | opShutdown
deriving DecidableEq, Repr

/-- Interpretation of each public operation on the engine state. -/
def applyOp : Op → FSM → FSM
  | Op.opTransitionToState st t, s => s.transitionToState st t
  | Op.opSetDelay d, s => s.setDelay d
  | Op.opSetErrorCount c, s => s.setErrorCount c
  | Op.opSetMoveCount c, s => s.setMoveCount c
  | Op.opAddStateToHistory st t, s => s.addStateToHistory st t
  | Op.opSetLastHeartbeat t, s => s.setLastHeartbeat t
  | Op.opPerformInit t, s => s.performInit t
  | Op.opPerformProcess cmd t, s => s.performProcess cmd t
  | Op.opPerformMovement t, s => s.performMovement t
  | Op.opPerformShooting t, s => s.performShooting t
  | Op.opPerformCalculation t, s => s.performCalculation t
  | Op.opPerformErrorHandling t, s => s.performErrorHandling t
  | Op.opUpdate cmd t, s => s.update cmd t
  | Op.opShutdown, s => s.shutdown

/-- True exactly for the `setErrorCount` operation. -/
def Op.isSetErrorCount : Op → Bool
  | Op.opSetErrorCount _ => true
  | _ => false

-- Helper lemmas -------------------------------------------------------------

theorem transitionToState_stateHistory (s : FSM) (st : SystemState) (t : Nat) :
    (s.transitionToState st t).stateHistory = s.stateHistory ++ [(st, t)] := rfl

theorem transitionToState_currentState (s : FSM) (st : SystemState) (t : Nat) :
    (s.transitionToState st t).currentState = st := rfl

theorem runTransitions_spec (l : List (SystemState × Nat)) (s : FSM)
    (h : s.stateHistory.getLast?.map Prod.fst = some s.currentState) :
    (runTransitions s l).stateHistory.length = s.stateHistory.length + l.length ∧
    (runTransitions s l).stateHistory.getLast?.map Prod.fst
      = some (runTransitions s l).currentState := by
  induction l generalizing s with
  | nil => exact ⟨rfl, h⟩
  | cons p rest ih =>
    obtain ⟨st, t⟩ := p
    have h' : (s.transitionToState st t).stateHistory.getLast?.map Prod.fst
        = some (s.transitionToState st t).currentState := by
      simp [FSM.transitionToState]
    have := ih (s.transitionToState st t) h'
    refine ⟨?_, this.2⟩
    rw [runTransitions, this.1]
    simp [FSM.transitionToState]
    omega

/-- C1: for every sequence of `transitionToState` calls after construction
(either constructor, i.e. any initial delay `d`), the history has length
`1 +` the number of calls, and the state of its last entry equals
`currentState`. -/
theorem C1_history_invariant (d : Nat) (l : List (SystemState × Nat)) :
    (runTransitions (FSM.initWithDelay d) l).stateHistory.length = 1 + l.length ∧
    (runTransitions (FSM.initWithDelay d) l).stateHistory.getLast?.map Prod.fst
      = some (runTransitions (FSM.initWithDelay d) l).currentState := by
  have h := runTransitions_spec l (FSM.initWithDelay d) (by simp [FSM.initWithDelay])
  refine ⟨?_, h.2⟩
  rw [h.1]
  simp [FSM.initWithDelay]

/-- C2: in IDLE, `performProcess` on command 1 leaves the whole state (thus
also the history) unchanged and stays in IDLE; on 2, 3, 4, 5 it transitions
to MOVEMENT, SHOOTING, CALCULATION, STOPPED respectively; on any other
integer it transitions to ERROR. -/
theorem C2_performProcess (s : FSM) (t : Nat) (h : s.currentState = SystemState.IDLE) :
    (s.performProcess 1 t = s ∧ (s.performProcess 1 t).currentState = SystemState.IDLE) ∧
    s.performProcess 2 t = s.transitionToState SystemState.MOVEMENT t ∧
    s.performProcess 3 t = s.transitionToState SystemState.SHOOTING t ∧
    s.performProcess 4 t = s.transitionToState SystemState.CALCULATION t ∧
    s.performProcess 5 t = s.transitionToState SystemState.STOPPED t ∧
    ∀ cmd : Int, cmd ≠ 1 → cmd ≠ 2 → cmd ≠ 3 → cmd ≠ 4 → cmd ≠ 5 →
      s.performProcess cmd t = s.transitionToState SystemState.ERROR t := by
  refine ⟨⟨by simp [FSM.performProcess], ?_⟩, ?_, ?_, ?_, ?_, ?_⟩
  · simp [FSM.performProcess, h]
  · simp [FSM.performProcess]
  · simp [FSM.performProcess]
  · simp [FSM.performProcess]
  · simp [FSM.performProcess]
  · intro cmd h1 h2 h3 h4 h5
    simp [FSM.performProcess, h1, h2, h3, h4, h5]

theorem C2_witness :
    ((FSM.mkDefault.transitionToState SystemState.IDLE 4).performProcess 9 7).currentState
      = SystemState.ERROR := by
  have h := (C2_performProcess (FSM.mkDefault.transitionToState SystemState.IDLE 4) 7
    (by decide)).2.2.2.2.2 9 (by decide) (by decide) (by decide) (by decide) (by decide)
  rw [h]
  rfl

/-- C3: `performMovement` increments `moveCount` by exactly 1 and transitions
to SHOOTING when the incremented count is `>= 3`, otherwise to IDLE; and from
any state with non-negative `moveCount`, three consecutive `performMovement`
calls end in SHOOTING. -/
theorem C3_performMovement :
    (∀ (s : FSM) (t : Nat),
      (s.performMovement t).moveCount = s.moveCount + 1 ∧
      (s.performMovement t).currentState =
        (if s.moveCount + 1 ≥ 3 then SystemState.SHOOTING else SystemState.IDLE)) ∧
    (∀ (s : FSM) (t1 t2 t3 : Nat), 0 ≤ s.moveCount →
      (((s.performMovement t1).performMovement t2).performMovement t3).currentState
        = SystemState.SHOOTING) := by
  constructor
  · intro s t
    exact ⟨rfl, rfl⟩
  · intro s t1 t2 t3 h
    simp only [FSM.performMovement, FSM.transitionToState]
    rw [if_pos (by omega)]

theorem C3_witness :
    (0 : Int) ≤ FSM.mkDefault.moveCount ∧
    (((FSM.mkDefault.performMovement 1).performMovement 2).performMovement 3).currentState
      = SystemState.SHOOTING :=
  ⟨by decide, C3_performMovement.2 FSM.mkDefault 1 2 3 (by decide)⟩

/-- C4: `performErrorHandling` increments `errorCount` by exactly 1 and
transitions to STOPPED when the incremented count is `> 3`, otherwise to
IDLE; in particular with `errorCount = 3` before the call (the fourth
error), the count becomes 4 and the next state is STOPPED. -/
theorem C4_performErrorHandling :
    (∀ (s : FSM) (t : Nat),
      (s.performErrorHandling t).errorCount = s.errorCount + 1 ∧
      (s.performErrorHandling t).currentState =
        (if s.errorCount + 1 > 3 then SystemState.STOPPED else SystemState.IDLE)) ∧
    (∀ (s : FSM) (t : Nat), s.errorCount = 3 →
      (s.performErrorHandling t).errorCount = 4 ∧
      (s.performErrorHandling t).currentState = SystemState.STOPPED) := by
  constructor
  · intro s t
    exact ⟨rfl, rfl⟩
  · intro s t h
    simp only [FSM.performErrorHandling, FSM.transitionToState]
    rw [h]
    exact ⟨rfl, rfl⟩

theorem C4_witness :
    (FSM.mkDefault.setErrorCount 3).errorCount = 3 ∧
    ((FSM.mkDefault.setErrorCount 3).performErrorHandling 6).errorCount = 4 ∧
    ((FSM.mkDefault.setErrorCount 3).performErrorHandling 6).currentState
      = SystemState.STOPPED :=
  ⟨by decide, C4_performErrorHandling.2 (FSM.mkDefault.setErrorCount 3) 6 (by decide)⟩

/-- C5: `performCalculation` transitions to ERROR when `moveCount = 0` and
to IDLE when `moveCount > 0`, and leaves both counters unchanged. -/
theorem C5_performCalculation (s : FSM) (t : Nat) :
    (s.moveCount = 0 → (s.performCalculation t).currentState = SystemState.ERROR) ∧
    (0 < s.moveCount → (s.performCalculation t).currentState = SystemState.IDLE) ∧
    (s.performCalculation t).moveCount = s.moveCount ∧
    (s.performCalculation t).errorCount = s.errorCount := by
  refine ⟨?_, ?_, ?_, ?_⟩
  · intro h
    simp [FSM.performCalculation, FSM.transitionToState, h]
  · intro h
    simp only [FSM.performCalculation]
    rw [if_neg (by omega : ¬ s.moveCount = 0)]
    rfl
  · by_cases h : s.moveCount = 0 <;>
      simp [FSM.performCalculation, FSM.transitionToState, h]
  · by_cases h : s.moveCount = 0 <;>
      simp [FSM.performCalculation, FSM.transitionToState, h]

theorem C5_witness :
    FSM.mkDefault.moveCount = 0 ∧
    (FSM.mkDefault.performCalculation 2).currentState = SystemState.ERROR :=
  ⟨by decide, (C5_performCalculation FSM.mkDefault 2).1 (by decide)⟩

/-- C6: evaluation at a default-constructed engine (delay unconfigured,
i.e. 0).  `performInit` does transition to IDLE, but leaves `delay` at 0
instead of setting the documented 1000 ms default (fsm.cpp lines 98-101
never write `delay`, contrary to the header doc at fsm.hpp line 173 and to
the claim). -/
theorem C6_performInit_delay_unchanged :
    (FSM.mkDefault.performInit 7).delay = 0 ∧
    (FSM.mkDefault.performInit 7).delay ≠ 1000 ∧
    (FSM.mkDefault.performInit 7).currentState = SystemState.IDLE := by
  decide

/-- C10: `addStateToHistory` appends exactly the given pair to the history
and changes no other field; in particular it can append an entry whose
state differs from `currentState` (concretely: appending `(MOVEMENT, 5)` to
a fresh engine leaves `currentState = INIT` while the last history entry's
state is MOVEMENT). -/
theorem C10_addStateToHistory :
    (∀ (s : FSM) (st : SystemState) (t : Nat),
      (s.addStateToHistory st t).stateHistory = s.stateHistory ++ [(st, t)] ∧
      (s.addStateToHistory st t).currentState = s.currentState ∧
      (s.addStateToHistory st t).lastHeartbeat = s.lastHeartbeat ∧
      (s.addStateToHistory st t).delay = s.delay ∧
      (s.addStateToHistory st t).errorCount = s.errorCount ∧
      (s.addStateToHistory st t).moveCount = s.moveCount) ∧
    (FSM.mkDefault.addStateToHistory SystemState.MOVEMENT 5).stateHistory.getLast?.map Prod.fst
      ≠ some (FSM.mkDefault.addStateToHistory SystemState.MOVEMENT 5).currentState := by
  constructor
  · intro s st t
    exact ⟨rfl, rfl, rfl, rfl, rfl, rfl⟩
  · decide

theorem performProcess_errorCount (s : FSM) (cmd : Int) (t : Nat) :
    (s.performProcess cmd t).errorCount = s.errorCount := by
  unfold FSM.performProcess
  split_ifs <;> rfl

theorem update_errorCount_mono (s : FSM) (cmd : Int) (t : Nat) :
    s.errorCount ≤ (s.update cmd t).errorCount := by
  unfold FSM.update
  cases hs : s.currentState
  case INIT => exact le_refl _
  case IDLE => exact le_of_eq (performProcess_errorCount s cmd t).symm
  case MOVEMENT => exact le_refl _
  case SHOOTING => exact le_refl _
  case CALCULATION =>
    unfold FSM.performCalculation
    split_ifs <;> exact le_refl _
  case ERROR =>
    show s.errorCount ≤ s.errorCount + 1
    omega
  case STOPPED => exact le_refl _

/-- C7 counterexample: `setErrorCount` is a public operation that can
decrease `errorCount` — after one `performErrorHandling` (count 1),
`setErrorCount 0` brings the count back down to 0. -/
theorem C7_counterexample :
    (applyOp (Op.opSetErrorCount 0) (applyOp (Op.opPerformErrorHandling 5) FSM.mkDefault)).errorCount
      < (applyOp (Op.opPerformErrorHandling 5) FSM.mkDefault).errorCount := by
  decide

/-- C7 amended: `errorCount` is non-decreasing under every public mutating
operation of the engine except `setErrorCount`, which overwrites the
counter with its argument and can therefore decrease it. -/
theorem C7_errorCount_monotone (op : Op) (s : FSM) (h : op.isSetErrorCount = false) :
    s.errorCount ≤ (applyOp op s).errorCount := by
  cases op with
  | opSetErrorCount c => simp [Op.isSetErrorCount] at h
  | opTransitionToState st t => exact le_refl _
  | opSetDelay d => exact le_refl _
  | opSetMoveCount c => exact le_refl _
  | opAddStateToHistory st t => exact le_refl _
  | opSetLastHeartbeat t => exact le_refl _
  | opPerformInit t => exact le_refl _
  | opPerformProcess cmd t => exact le_of_eq (performProcess_errorCount s cmd t).symm
  | opPerformMovement t => exact le_refl _
  | opPerformShooting t => exact le_refl _
  | opPerformCalculation t =>
    show s.errorCount ≤ (s.performCalculation t).errorCount
    unfold FSM.performCalculation
    split_ifs <;> exact le_refl _
  | opPerformErrorHandling t =>
    show s.errorCount ≤ s.errorCount + 1
    omega
  | opUpdate cmd t => exact update_errorCount_mono s cmd t
  | opShutdown => exact le_refl _

theorem C7_witness :
    (Op.opPerformMovement 3).isSetErrorCount = false ∧
    FSM.mkDefault.errorCount ≤ (applyOp (Op.opPerformMovement 3) FSM.mkDefault).errorCount :=
  ⟨rfl, C7_errorCount_monotone (Op.opPerformMovement 3) FSM.mkDefault rfl⟩

theorem update_stopped (s : FSM) (cmd : Int) (t : Nat)
    (h : s.currentState = SystemState.STOPPED) : s.update cmd t = s := by
  unfold FSM.update
  rw [h]
  rfl

/-- C8: STOPPED is terminal.  A single `update` in STOPPED only calls
`shutdown`, which changes nothing, and any sequence of further `update`
calls leaves the engine in STOPPED. -/
theorem C8_stopped_terminal (s : FSM) (l : List (Int × Nat)) (cmd : Int) (t : Nat)
    (h : s.currentState = SystemState.STOPPED) :
    s.update cmd t = s ∧ (runUpdates s l).currentState = SystemState.STOPPED := by
  have main : ∀ s' : FSM, s'.currentState = SystemState.STOPPED →
      (runUpdates s' l).currentState = SystemState.STOPPED := by
    induction l with
    | nil => intro s' h'; exact h'
    | cons p rest ih =>
      intro s' h'
      obtain ⟨c, u⟩ := p
      rw [runUpdates, update_stopped s' c u h']
      exact ih s' h'
  exact ⟨update_stopped s cmd t h, main s h⟩

theorem C8_witness :
    ((FSM.mkDefault.transitionToState SystemState.STOPPED 1).update 9 2
        = FSM.mkDefault.transitionToState SystemState.STOPPED 1) ∧
    (runUpdates (FSM.mkDefault.transitionToState SystemState.STOPPED 1)
        [(2, 3), (9, 4)]).currentState = SystemState.STOPPED :=
  C8_stopped_terminal (FSM.mkDefault.transitionToState SystemState.STOPPED 1)
    [(2, 3), (9, 4)] 9 2 (by decide)

theorem update_setDelay_comm (s : FSM) (d : Nat) (cmd : Int) (t : Nat) :
    (s.setDelay d).update cmd t = (s.update cmd t).setDelay d := by
  obtain ⟨c, hb, dl, e, sh, m⟩ := s
  cases c <;>
    simp [FSM.update, FSM.setDelay, FSM.performInit, FSM.performProcess,
      FSM.performMovement, FSM.performShooting, FSM.performCalculation,
      FSM.performErrorHandling, FSM.shutdown, FSM.transitionToState] <;>
    split_ifs <;> rfl

/-- C9: `delay` never influences the engine's behaviour.  Two states that
agree on every field except `delay` yield, after one `update` with the same
command and clock inputs, the same current state, move count, error count
and history (so also the same appended history entries). -/
theorem C9_delay_noninterference (s₁ s₂ : FSM) (cmd : Int) (t : Nat)
    (hc : s₁.currentState = s₂.currentState)
    (hh : s₁.lastHeartbeat = s₂.lastHeartbeat)
    (he : s₁.errorCount = s₂.errorCount)
    (hsh : s₁.stateHistory = s₂.stateHistory)
    (hm : s₁.moveCount = s₂.moveCount) :
    (s₁.update cmd t).currentState = (s₂.update cmd t).currentState ∧
    (s₁.update cmd t).moveCount = (s₂.update cmd t).moveCount ∧
    (s₁.update cmd t).errorCount = (s₂.update cmd t).errorCount ∧
    (s₁.update cmd t).stateHistory = (s₂.update cmd t).stateHistory := by
  obtain ⟨c1, b1, d1, e1, h1, m1⟩ := s₁
  obtain ⟨c2, b2, d2, e2, h2, m2⟩ := s₂
  dsimp only at hc hh he hsh hm
  subst hc hh he hsh hm
  have key : (FSM.mk c1 b1 d1 e1 h1 m1).update cmd t
      = ((FSM.mk c1 b1 d2 e1 h1 m1).update cmd t).setDelay d1 :=
    update_setDelay_comm (FSM.mk c1 b1 d2 e1 h1 m1) d1 cmd t
  rw [key]
  simp [FSM.setDelay]

theorem C9_witness :
    ((FSM.initWithDelay 0).update 9 5).currentState
        = ((FSM.initWithDelay 99).update 9 5).currentState ∧
    ((FSM.initWithDelay 0).update 9 5).moveCount
        = ((FSM.initWithDelay 99).update 9 5).moveCount ∧
    ((FSM.initWithDelay 0).update 9 5).errorCount
        = ((FSM.initWithDelay 99).update 9 5).errorCount ∧
    ((FSM.initWithDelay 0).update 9 5).stateHistory
        = ((FSM.initWithDelay 99).update 9 5).stateHistory :=
  C9_delay_noninterference (FSM.initWithDelay 0) (FSM.initWithDelay 99) 9 5
    rfl rfl rfl rfl rfl
